import Mathlib

/-!
Verification of the `google.adk.code_executors` core: the shallow embedding
below transcribes `unsafe_local_code_executor.py` and
`isolated_code_executor.py` (data model, constructors, `execute_code`), with
the Python runtime (dynamic `exec`, `subprocess.run`, `traceback.format_exc`)
abstracted as an oracle structure `PyRuntime`.

Execution functions return, besides the `CodeExecutionResult`, the list of
argv vectors handed to `subprocess.run` during the call, so that theorems can
speak about which child processes a call spawns.
-/

namespace AdkCodeExecutors

/-- `CodeExecutionInput`: the request handed to `execute_code`; the embedding
keeps the `code` field, the only one the two executors read. -/
structure CodeExecutionInput where
  code : String
  deriving DecidableEq

/-- `CodeExecutionResult` as both executors build it: captured standard
output, captured standard error, and the produced output files. -/
structure CodeExecutionResult where
  stdout : String
  stderr : String
  output_files : List String
  deriving DecidableEq

/-- `InvocationContext`: opaque to both executors, which never read it. -/
structure InvocationContext where
  invocation_id : String
  deriving DecidableEq

/-- A Python exception value: its class name and its `str(e)` message. -/
structure PyError where
  kind : String
  message : String
  deriving DecidableEq

/-- Outcome of dynamically evaluating a code string in-process:
`stdoutText` is what the code wrote to `sys.stdout` and `stderrText` what it
wrote to `sys.stderr` before finishing (normally, or at the uncaught
exception `err`). -/
inductive ExecOutcome where
  | ok (stdoutText : String) (stderrText : String)
  | exn (stdoutText : String) (stderrText : String) (err : PyError)
  deriving DecidableEq

/-- What `subprocess.run(argv, capture_output=True, text=True)` returns:
the child's captured streams and exit status. -/
structure ProcessOutcome where
  stdout : String
  stderr : String
  returncode : Int
  deriving DecidableEq

/-- The oracle for the parts of the Python runtime the executors call into:
`pythonExecutable` is `sys.executable`; `runProcess` is `subprocess.run` on
an argv vector with captured text streams; `execDynamic code seeded` is
`exec(code, globals_)` where `seeded` says whether `globals_` carries
`__name__ = '__main__'`; `formatExc e` is the text `traceback.format_exc()`
renders for a caught exception `e`. -/
structure PyRuntime where
  pythonExecutable : String
  runProcess : List String → ProcessOutcome
  execDynamic : String → Bool → ExecOutcome
  formatExc : PyError → String

/-- The module-level names `unsafe_local_code_executor.py` binds via its
imports and definitions (transcribed from the file's import block and
top-level statements). `re` is not among them: the module never imports
`re`, although `_prepare_globals` evaluates `re.search`. -/
def unsafeLocalModuleNames : List String :=
  ["annotations", "redirect_stdout", "io", "logging", "subprocess", "sys",
   "Any", "Field", "override", "InvocationContext", "BaseCodeExecutor",
   "CodeExecutionInput", "CodeExecutionResult", "logger",
   "_prepare_globals", "UnsafeLocalCodeExecutor"]

/-- The exception Python raises when the name `re` is looked up in a module
that never imported it. -/
def reNameError : PyError :=
  { kind := "NameError", message := "name 're' is not defined" }

/-- The characters Python's `re` module treats as `\s` on ASCII text
(space, tab, newline, carriage return, vertical tab, form feed). -/
def pyWhitespace (c : Char) : Bool :=
  c = ' ' || c = '\t' || c = '\n' || c = '\r' || c = '\x0b' || c = '\x0c'

/-- Match a literal character sequence at the head of the input, returning
the rest on success. -/
def dropLiteral : List Char → List Char → Option (List Char)
  | [], cs => some cs
  | _ :: _, [] => none
  | l :: ls, c :: cs => if c = l then dropLiteral ls cs else none

/-- Drop a (possibly empty) run of `\s` characters, as `\s*` does. -/
def dropSpaces : List Char → List Char
  | [] => []
  | c :: cs => if pyWhitespace c then dropSpaces cs else c :: cs

/-- Whether the regular expression
`if\s+__name__\s*==\s*['\"]__main__['\"]` (the pattern `_prepare_globals`
feeds to `re.search`) matches at the start of the input: `if`, one or more
`\s`, `__name__`, `\s*`, `==`, `\s*`, a single or double quote, `__main__`,
a single or double quote. -/
def matchGuardAt (cs : List Char) : Bool :=
  match dropLiteral "if".data cs with
  | none => false
  | some r1 =>
    match r1 with
    | [] => false
    | c :: rest =>
      if pyWhitespace c then
        match dropLiteral "__name__".data (dropSpaces rest) with
        | none => false
        | some r3 =>
          match dropLiteral "==".data (dropSpaces r3) with
          | none => false
          | some r5 =>
            match dropSpaces r5 with
            | [] => false
            | q :: r7 =>
              if q = '\'' || q = '"' then
                match dropLiteral "__main__".data r7 with
                | none => false
                | some r8 =>
                  match r8 with
                  | [] => false
                  | q2 :: _ => q2 = '\'' || q2 = '"'
              else false
      else false

/-- Whether the guard pattern matches at some position, as `re.search`
scans every starting position. -/
def containsGuard : List Char → Bool
  | [] => false
  | c :: cs => matchGuardAt (c :: cs) || containsGuard cs

/-- `re.search(r"if\s+__name__\s*==\s*['\"]__main__['\"]", code)` is not
`None`: the submitted code contains a textual module-is-main guard. -/
def hasMainGuard (code : String) : Bool :=
  containsGuard code.data

/-- The namespace dict `execute_code` builds for `exec`: the only key the
module ever writes is `__name__`, recorded here as whether it was set to
`'__main__'`. -/
structure PyGlobals where
  nameIsMain : Bool
  deriving DecidableEq

/-- `_prepare_globals` from `unsafe_local_code_executor.py`: its body
evaluates `re.search(...)`, but `re` is not a module-level name there
(see `unsafeLocalModuleNames`), so the lookup raises `NameError` before the
pattern is ever tried; had `re` been importable, it would seed
`__name__ = '__main__'` exactly when the guard pattern occurs in the code. -/
def prepare_globals (code : String) (g : PyGlobals) : Except PyError PyGlobals :=
  if unsafeLocalModuleNames.contains "re" then
    if hasMainGuard code then .ok { nameIsMain := true } else .ok g
  else
    .error reNameError

/-- The keyword arguments a caller may pass for the two base-class flags;
`none` models an omitted key, mirroring the `'stateful' in data` checks. -/
structure InitData where
  stateful : Option Bool
  optimize_data_file : Option Bool
  deriving DecidableEq

/-- Construction data with both flag keys omitted. -/
def emptyInitData : InitData :=
  { stateful := none, optimize_data_file := none }

/-- `UnsafeLocalCodeExecutor`: pydantic model with the two overridden frozen
flags and the `use_separate_process` switch. -/
structure UnsafeLocalCodeExecutor where
  stateful : Bool
  optimize_data_file : Bool
  use_separate_process : Bool
  deriving DecidableEq

/-- `UnsafeLocalCodeExecutor.__init__`: raises `ValueError` when the data
carries `stateful=True` or `optimize_data_file=True`, otherwise builds the
instance (flags default to `False` when omitted). -/
def UnsafeLocalCodeExecutor.init (use_separate_process : Bool)
    (data : InitData) : Except String UnsafeLocalCodeExecutor :=
  if data.stateful = some true then
    .error "Cannot set `stateful=True` in UnsafeLocalCodeExecutor."
  else if data.optimize_data_file = some true then
    .error "Cannot set `optimize_data_file=True` in UnsafeLocalCodeExecutor."
  else
    .ok { stateful := data.stateful.getD false,
          optimize_data_file := data.optimize_data_file.getD false,
          use_separate_process := use_separate_process }

/-- The fields `unsafe_local_code_executor.py` declares with
`Field(frozen=True)`. -/
def UnsafeLocalCodeExecutor.frozenFields : List String :=
  ["stateful", "optimize_data_file"]

/-- Attribute assignment on the pydantic model: per pydantic's documented
semantics for `Field(frozen=True)`, assigning to a frozen field raises a
`ValidationError` and leaves the instance unchanged; the one non-frozen
boolean field (`use_separate_process`) is assignable. -/
def UnsafeLocalCodeExecutor.setAttr (ex : UnsafeLocalCodeExecutor)
    (fieldName : String) (value : Bool) :
    Except String UnsafeLocalCodeExecutor :=
  if UnsafeLocalCodeExecutor.frozenFields.contains fieldName then
    .error "ValidationError: field is frozen"
  else if fieldName = "use_separate_process" then
    .ok { ex with use_separate_process := value }
  else
    .ok ex

/-- `UnsafeLocalCodeExecutor.execute_code`: with `use_separate_process`
true, one `subprocess.run([sys.executable, '-c', code])` call and a result
made of the child's captured streams; otherwise the in-process path: a
fresh namespace, `_prepare_globals`, then `exec` under
`redirect_stdout(stdout_capture)`, all inside one `try` whose handler
writes `traceback.format_exc()` into the (never redirected)
`stderr_capture`. The second component lists the argv of each spawned
child process. -/
def UnsafeLocalCodeExecutor.execute_code (rt : PyRuntime)
    (ex : UnsafeLocalCodeExecutor) (invocation_context : InvocationContext)
    (code_execution_input : CodeExecutionInput) :
    CodeExecutionResult × List (List String) :=
  if ex.use_separate_process then
    let argv := [rt.pythonExecutable, "-c", code_execution_input.code]
    let process_result := rt.runProcess argv
    ({ stdout := process_result.stdout,
       stderr := process_result.stderr,
       output_files := [] }, [argv])
  else
    match prepare_globals code_execution_input.code { nameIsMain := false } with
    | .error e =>
        ({ stdout := "", stderr := rt.formatExc e, output_files := [] }, [])
    | .ok g =>
        match rt.execDynamic code_execution_input.code g.nameIsMain with
        | .ok out _errOut =>
            ({ stdout := out, stderr := "", output_files := [] }, [])
        | .exn out _errOut e =>
            ({ stdout := out, stderr := rt.formatExc e, output_files := [] }, [])

/-- `IsolatedCodeExecutor`: pydantic model with the two overridden frozen
flags. -/
structure IsolatedCodeExecutor where
  stateful : Bool
  optimize_data_file : Bool
  deriving DecidableEq

/-- `IsolatedCodeExecutor.__init__`: raises `ValueError` when the data
carries `stateful=True` or `optimize_data_file=True`, otherwise builds the
instance. -/
def IsolatedCodeExecutor.init (data : InitData) :
    Except String IsolatedCodeExecutor :=
  if data.stateful = some true then
    .error "Cannot set `stateful=True` in IsolatedCodeExecutor."
  else if data.optimize_data_file = some true then
    .error "Cannot set `optimize_data_file=True` in IsolatedCodeExecutor."
  else
    .ok { stateful := data.stateful.getD false,
          optimize_data_file := data.optimize_data_file.getD false }

/-- The fields `isolated_code_executor.py` declares with
`Field(frozen=True)`. -/
def IsolatedCodeExecutor.frozenFields : List String :=
  ["stateful", "optimize_data_file"]

/-- Attribute assignment on the pydantic model, as for the local executor:
both declared fields are frozen, so every assignment raises. -/
def IsolatedCodeExecutor.setAttr (ex : IsolatedCodeExecutor)
    (fieldName : String) (value : Bool) :
    Except String IsolatedCodeExecutor :=
  if IsolatedCodeExecutor.frozenFields.contains fieldName then
    .error "ValidationError: field is frozen"
  else
    .ok ex

/-- `IsolatedCodeExecutor.execute_code`: one
`subprocess.run([sys.executable, '-c', code], capture_output=True,
text=True)` call, waited for synchronously, and a result made of the
child's captured streams verbatim with no output files. The second
component lists the argv of each spawned child process. -/
def IsolatedCodeExecutor.execute_code (rt : PyRuntime)
    (ex : IsolatedCodeExecutor) (invocation_context : InvocationContext)
    (code_execution_input : CodeExecutionInput) :
    CodeExecutionResult × List (List String) :=
  let code := code_execution_input.code
  let argv := [rt.pythonExecutable, "-c", code]
  let process_result := rt.runProcess argv
  ({ stdout := process_result.stdout,
     stderr := process_result.stderr,
     output_files := [] }, [argv])

/-- Whether the character sequence `needle` occurs at some position of the
input. -/
def occursList (needle : List Char) : List Char → Bool
  | [] => (dropLiteral needle []).isSome
  | c :: cs => (dropLiteral needle (c :: cs)).isSome || occursList needle cs

/-- Whether `needle` occurs as a substring of `haystack` (the `in`
operator on Python strings). -/
def occursIn (needle haystack : String) : Bool :=
  occursList needle.data haystack.data

/-- A concrete traceback rendering for sample runtimes: the frame header
`traceback.format_exc()` always prints, then the `kind: message` line. -/
def sampleTraceback (e : PyError) : String :=
  "Traceback (most recent call last):\n" ++
  "  File \"unsafe_local_code_executor.py\", line 95, in execute_code\n" ++
  e.kind ++ ": " ++ e.message ++ "\n"

/-- A concrete runtime oracle used to instantiate theorems at closed
inputs: children produce no output and exit 0, in-process evaluation
writes nothing, tracebacks render via `sampleTraceback`. -/
def sampleRuntime : PyRuntime :=
  { pythonExecutable := "/usr/bin/python3",
    runProcess := fun _ => { stdout := "", stderr := "", returncode := 0 },
    execDynamic := fun _ _ => .ok "" "",
    formatExc := sampleTraceback }

/-- A concrete invocation context (the executors never read it). -/
def sampleContext : InvocationContext :=
  { invocation_id := "test_invocation" }

/-- An `UnsafeLocalCodeExecutor` as default construction yields it:
in-process execution, both base flags false. -/
def inProcessExecutor : UnsafeLocalCodeExecutor :=
  { stateful := false, optimize_data_file := false,
    use_separate_process := false }

/-- An `UnsafeLocalCodeExecutor` constructed with
`use_separate_process=True`. -/
def separateProcessExecutor : UnsafeLocalCodeExecutor :=
  { stateful := false, optimize_data_file := false,
    use_separate_process := true }

/-- An `IsolatedCodeExecutor` as default construction yields it. -/
def isolatedExecutor : IsolatedCodeExecutor :=
  { stateful := false, optimize_data_file := false }

/-- The main-guard example program from the spec and the repository's
tests. -/
def mainGuardCode : String :=
  "if __name__ == \"__main__\":\n    print(\"executed as main\")"

end AdkCodeExecutors

namespace AdkCodeExecutors

/-- Helper: a flag keyword that was omitted or passed as `False` yields the
field value `False`. -/
theorem getD_false_of_ne_some_true (o : Option Bool) (h : o ≠ some true) :
    o.getD false = false := by
  cases o with
  | none => rfl
  | some b =>
    cases b with
    | false => rfl
    | true => exact absurd rfl h

/-- C1: on both executors, construction with `stateful=True` or
`optimize_data_file=True` fails with a `ValueError` and produces no
instance (hence no Result), while construction with both flags false or
omitted succeeds; the check runs in `__init__` itself, before any
`execute_code` call can exist. -/
theorem constructor_flag_validation (sep : Bool) (d : InitData) :
    (d.stateful = some true ∨ d.optimize_data_file = some true →
      (∃ msgU, UnsafeLocalCodeExecutor.init sep d = .error msgU) ∧
      (∃ msgI, IsolatedCodeExecutor.init d = .error msgI)) ∧
    (d.stateful ≠ some true → d.optimize_data_file ≠ some true →
      (∃ exU, UnsafeLocalCodeExecutor.init sep d = .ok exU) ∧
      (∃ exI, IsolatedCodeExecutor.init d = .ok exI)) := by
  constructor
  · intro h
    by_cases hs : d.stateful = some true
    · exact ⟨⟨"Cannot set `stateful=True` in UnsafeLocalCodeExecutor.",
          by simp [UnsafeLocalCodeExecutor.init, hs]⟩,
        ⟨"Cannot set `stateful=True` in IsolatedCodeExecutor.",
          by simp [IsolatedCodeExecutor.init, hs]⟩⟩
    · have ho : d.optimize_data_file = some true := h.resolve_left hs
      exact ⟨⟨"Cannot set `optimize_data_file=True` in UnsafeLocalCodeExecutor.",
          by simp [UnsafeLocalCodeExecutor.init, hs, ho]⟩,
        ⟨"Cannot set `optimize_data_file=True` in IsolatedCodeExecutor.",
          by simp [IsolatedCodeExecutor.init, hs, ho]⟩⟩
  · intro hs ho
    exact ⟨⟨⟨d.stateful.getD false, d.optimize_data_file.getD false, sep⟩,
        by simp [UnsafeLocalCodeExecutor.init, hs, ho]⟩,
      ⟨⟨d.stateful.getD false, d.optimize_data_file.getD false⟩,
        by simp [IsolatedCodeExecutor.init, hs, ho]⟩⟩

/-- Witness for C1 at concrete inputs: `stateful=True` is rejected by both
constructors, and default construction succeeds on both. -/
theorem constructor_flag_validation_witness :
    ((∃ msgU, UnsafeLocalCodeExecutor.init false
        { stateful := some true, optimize_data_file := none } = .error msgU) ∧
     (∃ msgI, IsolatedCodeExecutor.init
        { stateful := some true, optimize_data_file := none } = .error msgI)) ∧
    ((∃ exU, UnsafeLocalCodeExecutor.init false emptyInitData = .ok exU) ∧
     (∃ exI, IsolatedCodeExecutor.init emptyInitData = .ok exI)) :=
  ⟨(constructor_flag_validation false
      { stateful := some true, optimize_data_file := none }).1 (Or.inl rfl),
   (constructor_flag_validation false emptyInitData).2
      (by decide) (by decide)⟩

/-- C2, evaluated at the failing input: on the in-process path, executing
`print("hello world")` yields `stdout = ""` (not `"hello world\n"`) and
`stderr` set to the traceback of the `NameError` that `_prepare_globals`
raises because the module never imports `re`; in particular no trace of
the printed text reaches `stdout`. -/
theorem hello_world_in_process_diverges (rt : PyRuntime) :
    (UnsafeLocalCodeExecutor.execute_code rt inProcessExecutor sampleContext
        { code := "print(\"hello world\")" }).1 =
      { stdout := "", stderr := rt.formatExc reNameError,
        output_files := [] } ∧
    occursIn "hello world"
      ((UnsafeLocalCodeExecutor.execute_code sampleRuntime inProcessExecutor
          sampleContext { code := "print(\"hello world\")" }).1.stdout)
      = false :=
  ⟨rfl, by decide⟩

/-- C3, evaluated at the failing input: the guard example from the spec
does contain the textual main-guard pattern, yet the in-process path
returns `stdout = ""` (not `"executed as main\n"`): the `NameError` on the
unimported `re` aborts `_prepare_globals` before the namespace is seeded
and before the code runs. -/
theorem main_guard_in_process_not_executed (rt : PyRuntime) :
    hasMainGuard mainGuardCode = true ∧
    (UnsafeLocalCodeExecutor.execute_code rt inProcessExecutor sampleContext
        { code := mainGuardCode }).1 =
      { stdout := "", stderr := rt.formatExc reNameError,
        output_files := [] } :=
  ⟨by decide, rfl⟩

/-- C4, evaluated at the failing input: executing
`raise ValueError("Test error")` in-process returns `stdout = ""` and a
`stderr` holding the traceback of the module's own `NameError` on `re` —
the submitted code never runs, so its message `Test error` does not occur
in `stderr` (under the concrete sample traceback rendering). -/
theorem raise_in_process_stderr_lacks_message (rt : PyRuntime) :
    (UnsafeLocalCodeExecutor.execute_code rt inProcessExecutor sampleContext
        { code := "raise ValueError(\"Test error\")" }).1 =
      { stdout := "", stderr := rt.formatExc reNameError,
        output_files := [] } ∧
    occursIn "Test error"
      ((UnsafeLocalCodeExecutor.execute_code sampleRuntime inProcessExecutor
          sampleContext { code := "raise ValueError(\"Test error\")" }).1.stderr)
      = false :=
  ⟨rfl, by decide⟩

/-- Counterexample to C5 at a concrete input: on an in-process failure the
result's `stderr` is not the caught failure's short string description —
it is the full `traceback.format_exc()` text. -/
theorem in_process_stderr_not_short_description :
    (UnsafeLocalCodeExecutor.execute_code sampleRuntime inProcessExecutor
        sampleContext { code := "raise ValueError(\"Test error\")" }).1.stderr ≠
      reNameError.message ∧
    (UnsafeLocalCodeExecutor.execute_code sampleRuntime inProcessExecutor
        sampleContext { code := "raise ValueError(\"Test error\")" }).1.stderr =
      sampleRuntime.formatExc reNameError :=
  ⟨by decide, rfl⟩

/-- C5 as amended: when the in-process path catches a failure, the
result's `stderr` receives the caught failure's full
`traceback.format_exc()` text (the failure being, for every input, the
`NameError` on the unimported `re`). -/
theorem in_process_stderr_full_traceback (rt : PyRuntime)
    (input : CodeExecutionInput) :
    (UnsafeLocalCodeExecutor.execute_code rt inProcessExecutor sampleContext
        input).1.stderr = rt.formatExc reNameError :=
  rfl

/-- C6: `IsolatedCodeExecutor.execute_code` spawns exactly one child
process, whose argv is the same interpreter binary with the source passed
inline after `-c` (no temp file), and returns the child's captured
streams verbatim with no output files — whatever the child's streams and
exit status were, so a failing child is reported verbatim, never raised,
and no synthetic text is added. -/
theorem isolated_execute_single_inline_child (rt : PyRuntime)
    (ex : IsolatedCodeExecutor) (ctx : InvocationContext)
    (input : CodeExecutionInput) :
    (IsolatedCodeExecutor.execute_code rt ex ctx input).2 =
      [[rt.pythonExecutable, "-c", input.code]] ∧
    (IsolatedCodeExecutor.execute_code rt ex ctx input).1 =
      { stdout :=
          (rt.runProcess [rt.pythonExecutable, "-c", input.code]).stdout,
        stderr :=
          (rt.runProcess [rt.pythonExecutable, "-c", input.code]).stderr,
        output_files := [] } :=
  ⟨rfl, rfl⟩

/-- C7: with `use_separate_process = True`, the facade's `execute_code`
returns exactly what `IsolatedCodeExecutor.execute_code` returns on the
same runtime and input — same result and same spawned child argv. -/
theorem separate_process_facade_equals_isolated (rt : PyRuntime)
    (exU : UnsafeLocalCodeExecutor) (exI : IsolatedCodeExecutor)
    (ctx : InvocationContext) (input : CodeExecutionInput)
    (h : exU.use_separate_process = true) :
    UnsafeLocalCodeExecutor.execute_code rt exU ctx input =
      IsolatedCodeExecutor.execute_code rt exI ctx input := by
  simp [UnsafeLocalCodeExecutor.execute_code,
    IsolatedCodeExecutor.execute_code, h]

/-- Witness for C7 at a concrete runtime, executors and input. -/
theorem separate_process_facade_equals_isolated_witness :
    UnsafeLocalCodeExecutor.execute_code sampleRuntime separateProcessExecutor
        sampleContext { code := "print(\"hello world\")" } =
      IsolatedCodeExecutor.execute_code sampleRuntime isolatedExecutor
        sampleContext { code := "print(\"hello world\")" } :=
  separate_process_facade_equals_isolated sampleRuntime
    separateProcessExecutor isolatedExecutor sampleContext
    { code := "print(\"hello world\")" } rfl

/-- C8, evaluated at the failing input: executing the empty code string
in-process yields `stdout = ""` but a non-empty `stderr` (the traceback of
the `NameError` on the unimported `re`), not the claimed empty `stderr`. -/
theorem empty_code_in_process_diverges (rt : PyRuntime) :
    (UnsafeLocalCodeExecutor.execute_code rt inProcessExecutor sampleContext
        { code := "" }).1 =
      { stdout := "", stderr := rt.formatExc reNameError,
        output_files := [] } ∧
    (UnsafeLocalCodeExecutor.execute_code sampleRuntime inProcessExecutor
        sampleContext { code := "" }).1.stderr ≠ "" :=
  ⟨rfl, by decide⟩

/-- C9: every successfully constructed executor of either class has
`stateful = False` and `optimize_data_file = False`, and both fields are
frozen: any later attribute assignment to them fails with a
`ValidationError` and produces no updated instance (`execute_code`, which
takes the executor immutably and returns only a result, never changes
them). -/
theorem flags_false_and_frozen :
    (∀ sep d ex, UnsafeLocalCodeExecutor.init sep d = .ok ex →
      ex.stateful = false ∧ ex.optimize_data_file = false) ∧
    (∀ d ex, IsolatedCodeExecutor.init d = .ok ex →
      ex.stateful = false ∧ ex.optimize_data_file = false) ∧
    (∀ ex v, UnsafeLocalCodeExecutor.setAttr ex "stateful" v =
        .error "ValidationError: field is frozen" ∧
      UnsafeLocalCodeExecutor.setAttr ex "optimize_data_file" v =
        .error "ValidationError: field is frozen") ∧
    (∀ ex v, IsolatedCodeExecutor.setAttr ex "stateful" v =
        .error "ValidationError: field is frozen" ∧
      IsolatedCodeExecutor.setAttr ex "optimize_data_file" v =
        .error "ValidationError: field is frozen") := by
  refine ⟨?_, ?_, fun ex v => ⟨rfl, rfl⟩, fun ex v => ⟨rfl, rfl⟩⟩
  · intro sep d ex h
    unfold UnsafeLocalCodeExecutor.init at h
    by_cases hs : d.stateful = some true
    · rw [if_pos hs] at h
      exact absurd h (by simp)
    · rw [if_neg hs] at h
      by_cases ho : d.optimize_data_file = some true
      · rw [if_pos ho] at h
        exact absurd h (by simp)
      · rw [if_neg ho] at h
        injection h with h
        subst h
        exact ⟨getD_false_of_ne_some_true _ hs,
          getD_false_of_ne_some_true _ ho⟩
  · intro d ex h
    unfold IsolatedCodeExecutor.init at h
    by_cases hs : d.stateful = some true
    · rw [if_pos hs] at h
      exact absurd h (by simp)
    · rw [if_neg hs] at h
      by_cases ho : d.optimize_data_file = some true
      · rw [if_pos ho] at h
        exact absurd h (by simp)
      · rw [if_neg ho] at h
        injection h with h
        subst h
        exact ⟨getD_false_of_ne_some_true _ hs,
          getD_false_of_ne_some_true _ ho⟩

/-- Witness for C9 at concrete inputs: the default-constructed executors
have both flags `False`, and assigning `stateful` on one is rejected. -/
theorem flags_false_and_frozen_witness :
    (inProcessExecutor.stateful = false ∧
      inProcessExecutor.optimize_data_file = false) ∧
    (isolatedExecutor.stateful = false ∧
      isolatedExecutor.optimize_data_file = false) ∧
    UnsafeLocalCodeExecutor.setAttr inProcessExecutor "stateful" true =
      .error "ValidationError: field is frozen" :=
  ⟨flags_false_and_frozen.1 false emptyInitData inProcessExecutor rfl,
   flags_false_and_frozen.2.1 emptyInitData isolatedExecutor rfl,
   (flags_false_and_frozen.2.2.1 inProcessExecutor true).1⟩

/-- C10: the in-process result depends only on the runtime's traceback
rendering — two runtimes whose dynamic evaluation differs arbitrarily (in
particular in what the code writes to the standard error stream, and in
what child processes would return) give the same result, so nothing the
code writes to stderr is captured; and the result's `stderr` is exactly
the `traceback.format_exc()` text of the caught failure. -/
theorem in_process_capture_only_stdout_and_caught_failure
    (rt rt2 : PyRuntime) (input : CodeExecutionInput)
    (hfmt : rt.formatExc = rt2.formatExc) :
    (UnsafeLocalCodeExecutor.execute_code rt inProcessExecutor sampleContext
        input).1 =
      (UnsafeLocalCodeExecutor.execute_code rt2 inProcessExecutor
        sampleContext input).1 ∧
    (UnsafeLocalCodeExecutor.execute_code rt inProcessExecutor sampleContext
        input).1.stderr = rt.formatExc reNameError := by
  refine ⟨?_, rfl⟩
  have h1 : (UnsafeLocalCodeExecutor.execute_code rt inProcessExecutor
      sampleContext input).1 =
      { stdout := "", stderr := rt.formatExc reNameError,
        output_files := [] } := rfl
  rw [h1, hfmt]
  exact rfl

/-- Witness for C10 at a concrete runtime and an input that writes to the
standard error stream. -/
theorem in_process_capture_only_stdout_witness :
    (UnsafeLocalCodeExecutor.execute_code sampleRuntime inProcessExecutor
        sampleContext
        { code := "import sys; sys.stderr.write(\"boom\")" }).1 =
      (UnsafeLocalCodeExecutor.execute_code sampleRuntime inProcessExecutor
        sampleContext
        { code := "import sys; sys.stderr.write(\"boom\")" }).1 ∧
    (UnsafeLocalCodeExecutor.execute_code sampleRuntime inProcessExecutor
        sampleContext
        { code := "import sys; sys.stderr.write(\"boom\")" }).1.stderr =
      sampleRuntime.formatExc reNameError :=
  in_process_capture_only_stdout_and_caught_failure sampleRuntime
    sampleRuntime { code := "import sys; sys.stderr.write(\"boom\")" } rfl

end AdkCodeExecutors
